import Mathlib

set_option maxHeartbeats 1000000

/-!
Shallow embedding of the media search/favorites application
(`src/client/app.js`: the browser favorites store plus the Express
server search endpoints for movies (TMDB), books (Google Books) and
albums (Discogs)).

JavaScript values that can occur in parsed JSON are modelled by `Json`;
an absent property (`undefined`) is modelled by `Option Json` being
`none`.  Property access on `null` throws a `TypeError`; fallible
computations are modelled in `Except EKind`.
-/

inductive Json where
  | null : Json
  | bool (b : Bool) : Json
  | num (n : Int) : Json
  | str (s : String) : Json
  | arr (xs : List Json) : Json
  | obj (fields : List (String × Json)) : Json

/-- JavaScript truthiness of a JSON value. -/
def Json.truthy : Json → Bool
  | .null => false
  | .bool b => b
  | .num n => n != 0
  | .str s => s != ""
  | .arr _ => true
  | .obj _ => true

/-- Field lookup in an object's field list (objects hold each key once). -/
def lookupF (fields : List (String × Json)) (k : String) : Option Json :=
  (fields.find? (fun p => p.1 == k)).map (fun p => p.2)

/-- Non-throwing property access: `undefined` off anything non-object
(the callers only use it where the receiver cannot be `null`). -/
def jget : Json → String → Option Json
  | .obj fields, k => lookupF fields k
  | _, _ => none

/-- Error kinds a handler's `try` block can catch. -/
inductive EKind where
  | network : EKind
  | jsonErr : EKind
  | typeErr : EKind
deriving DecidableEq, Repr

/-- Property access as in JS: accessing a property of `null` throws. -/
def jsGetE : Json → String → Except EKind (Option Json)
  | .null, _ => .error .typeErr
  | .obj fields, k => .ok (lookupF fields k)
  | _, _ => .ok none

/-- `v || dflt` on a possibly-undefined value. -/
def jsOr (v : Option Json) (dflt : Json) : Json :=
  match v with
  | some j => if j.truthy then j else dflt
  | none => dflt

/-- Optional chaining `v?.k`: `undefined`/`null` short-circuit to
`undefined`, otherwise plain (non-throwing) property access. -/
def chainGet (v : Option Json) (k : String) : Option Json :=
  match v with
  | none => none
  | some .null => none
  | some j => jget j k

/-- `v?.length` for a possibly-undefined value. -/
def jsLen : Option Json → Option Json
  | some (.str s) => some (.num (s.length : Int))
  | some (.arr xs) => some (.num (xs.length : Int))
  | some (.obj fields) => lookupF fields "length"
  | _ => none

/-- Truthiness of a possibly-undefined value (`undefined` is falsy). -/
def optTruthy : Option Json → Bool
  | some j => j.truthy
  | none => false

mutual

/-- JS string conversion (template literals, `String(x)`).  The flag
says the value stands inside an array being joined, where `null`
renders as the empty string. -/
def jsToStr : Bool → Json → String
  | inArr, .null => if inArr then "" else "null"
  | _, .bool b => if b then "true" else "false"
  | _, .num n => toString n
  | _, .str s => s
  | _, .arr xs => String.intercalate "," (jsToStrList xs)
  | _, .obj _ => "[object Object]"

/-- Element-wise JS string conversion of an array's members. -/
def jsToStrList : List Json → List String
  | [] => []
  | x :: xs => jsToStr true x :: jsToStrList xs

end

/-- Whitespace as removed by `String.prototype.trim` (the ASCII part). -/
def jsWhitespace (c : Char) : Bool :=
  c = ' ' || c = '\t' || c = '\n' || c = '\r'

/-- `s.trim()`: strip leading and trailing whitespace. -/
def jsTrim (s : String) : String :=
  String.mk (((s.data.dropWhile jsWhitespace).reverse.dropWhile jsWhitespace).reverse)

/-- `v.slice(0, 4)` followed by template-literal stringification:
defined on strings and arrays, a `TypeError` on other truthy values. -/
def jsSlice4 : Json → Except EKind String
  | .str s => .ok (s.take 4)
  | .arr xs => .ok (jsToStr false (.arr (xs.take 4)))
  | _ => .error .typeErr

/-- `v?.[0]` for a possibly-undefined value. -/
def idx0 : Option Json → Option Json
  | none => none
  | some .null => none
  | some (.arr xs) => xs.head?
  | some (.str s) => if s = "" then none else some (.str (s.take 1))
  | some (.obj fields) => lookupF fields "0"
  | some _ => none

/-- `(v || []).slice(0, 20)` ready for `.map`: `undefined`/falsy gives
`[]`, an array is truncated to 20, any other truthy value throws when
sliced or mapped. -/
def jsSliceList20 (v : Option Json) : Except EKind (List Json) :=
  match v with
  | none => .ok []
  | some j =>
    if j.truthy then
      match j with
      | .arr xs => .ok (xs.take 20)
      | _ => .error .typeErr
    else .ok []

/-! ## The canonical item shape produced by the three endpoints -/

/-- The normalized item each endpoint maps an upstream record into.
`id` and `title` keep the raw upstream value (and may be absent, as the
movie endpoint copies `m.title` through with no fallback); `subtitle`
and `image` hold whatever JS value the normalization expression yields. -/
structure MediaItem where
  id : Option Json
  type : String
  title : Option Json
  subtitle : Json
  image : Json
  raw : Json

/-! ## Server environment, responses and upstream outcomes -/

/-- The environment variables the server reads (`process.env`);
`none` models an unset variable. -/
structure Env where
  tmdbApiKey : Option String
  googleBooksApiKey : Option String
  discogsToken : Option String
  discogsUserAgent : Option String

/-- `requireEnv` passes exactly when the variable is set to a non-empty
string (`!process.env[name]` is falsy only then). -/
def requireEnvOk (v : Option String) : Bool := v.getD "" != ""

/-- The error message of a failure body `{error: e.message}`.
Engine-raised errors (TypeError, JSON parse, network) carry an
engine-defined message, modelled as `none`. -/
inductive ErrMsg where
  | missingEnv (name : String) : ErrMsg
  | missingQuery : ErrMsg
  | engine (k : EKind) : ErrMsg

/-- The literal message string where the source fixes it. -/
def ErrMsg.message : ErrMsg → Option String
  | .missingEnv n => some ("Missing env var: " ++ n)
  | .missingQuery => some "Missing query param q"
  | .engine _ => none

/-- The JSON body of a handler response. -/
inductive ResBody where
  | err (msg : ErrMsg) : ResBody
  | items (xs : List MediaItem) : ResBody
  | discogsFailure (status : Nat) (details : Json) : ResBody

/-- An HTTP response: status code plus JSON body. -/
structure HttpRes where
  status : Nat
  body : ResBody

/-- Outcome of `fetch` followed by `r.json()` (movies/books): the fetch
may reject; otherwise it yields the upstream status and the JSON parse
of the body (`none` when the body is not valid JSON). -/
inductive Fetched where
  | fail : Fetched
  | resp (status : Nat) (body : Option Json) : Fetched

/-- Outcome of `JSON.parse(text)` in the albums handler: parsed JSON,
or the raw text when parsing throws. -/
inductive AlbumParse where
  | parsed (j : Json) : AlbumParse
  | rawText (t : String) : AlbumParse

/-- `let data; try { data = JSON.parse(text) } catch { data = { raw: text } }` -/
def albumData : AlbumParse → Json
  | .parsed j => j
  | .rawText t => Json.obj [("raw", Json.str t)]

/-- Outcome of `fetch` followed by `r.text()` (albums). -/
inductive AlbumFetched where
  | fail : AlbumFetched
  | resp (status : Nat) (pr : AlbumParse) : AlbumFetched

/-- `r.ok`: status in the inclusive range 200–299. -/
def statusOk (s : Nat) : Bool := decide (200 ≤ s ∧ s ≤ 299)

/-! ## Movies endpoint (`GET /api/search/movies`) -/

/-- `m.release_date ? \`(${m.release_date.slice(0, 4)})\` : ""` -/
def movieSubtitle (rd : Option Json) : Except EKind Json :=
  match rd with
  | some v =>
    if v.truthy then do
      let s ← jsSlice4 v
      pure (Json.str ("(" ++ s ++ ")"))
    else pure (Json.str "")
  | none => pure (Json.str "")

/-- `m.poster_path ? \`https://image.tmdb.org/t/p/w342${m.poster_path}\` : ""` -/
def moviePoster (pp : Option Json) : Json :=
  match pp with
  | some v =>
    if v.truthy then Json.str ("https://image.tmdb.org/t/p/w342" ++ jsToStr false v)
    else Json.str ""
  | none => Json.str ""

/-- Normalization of one TMDB record `m` into the common shape
(the `.map((m) => ({...}))` body).  No fallback is applied to `m.title`. -/
def movieItem (m : Json) : Except EKind MediaItem := do
  let id ← jsGetE m "id"
  let title ← jsGetE m "title"
  let rd ← jsGetE m "release_date"
  let subtitle ← movieSubtitle rd
  let pp ← jsGetE m "poster_path"
  pure ⟨id, "movie", title, subtitle, moviePoster pp, m⟩

/-- `(data.results || []).slice(0, 20).map(movieItem)` -/
def moviesItems (data : Json) : Except EKind (List MediaItem) := do
  let rs ← jsGetE data "results"
  let xs ← jsSliceList20 rs
  xs.mapM movieItem

/-- The movies handler.  Mirrors the source order: `requireEnv` first,
then the query check, then the fetch; any throw is caught and answered
with status 500 and `{error: e.message}`.  The first component counts
the `fetch` calls performed. -/
def moviesHandler (env : Env) (q? : Option String) (up : Fetched) : Nat × HttpRes :=
  if !requireEnvOk env.tmdbApiKey then
    (0, ⟨500, .err (.missingEnv "TMDB_API_KEY")⟩)
  else
    let q := jsTrim (q?.getD "")
    if q = "" then
      (0, ⟨400, .err .missingQuery⟩)
    else
      match up with
      | .fail => (1, ⟨500, .err (.engine .network)⟩)
      | .resp _ none => (1, ⟨500, .err (.engine .jsonErr)⟩)
      | .resp _ (some data) =>
        match moviesItems data with
        | .error k => (1, ⟨500, .err (.engine k)⟩)
        | .ok items => (1, ⟨200, .items items⟩)

/-! ## Books endpoint (`GET /api/search/books`) -/

/-- `info.authors?.length ? info.authors.join(", ") : ""` -/
def bookAuthors (info : Json) : Except EKind Json :=
  let au := jget info "authors"
  if optTruthy (jsLen au) then
    match au with
    | some (.arr xs) => .ok (Json.str (String.intercalate ", " (jsToStrList xs)))
    | _ => .error .typeErr
  else .ok (Json.str "")

/-- Normalization of one Google Books record `b`: `info.title` falls
back to the literal `"Untitled"`. -/
def bookItem (b : Json) : Except EKind MediaItem := do
  let vi ← jsGetE b "volumeInfo"
  let info : Json := jsOr vi (Json.obj [])
  let thumb : Json :=
    jsOr (chainGet (jget info "imageLinks") "thumbnail")
      (jsOr (chainGet (jget info "imageLinks") "smallThumbnail") (Json.str ""))
  let id := jget b "id"
  let title := jsOr (jget info "title") (Json.str "Untitled")
  let subtitle ← bookAuthors info
  pure ⟨id, "book", some title, subtitle, thumb, b⟩

/-- `(data.items || []).slice(0, 20).map(bookItem)` -/
def booksItems (data : Json) : Except EKind (List MediaItem) := do
  let rs ← jsGetE data "items"
  let xs ← jsSliceList20 rs
  xs.mapM bookItem

/-- The books handler: no credential requirement, query check, fetch,
normalize; throws are caught into 500 responses. -/
def booksHandler (env : Env) (q? : Option String) (up : Fetched) : Nat × HttpRes :=
  let q := jsTrim (q?.getD "")
  if q = "" then
    (0, ⟨400, .err .missingQuery⟩)
  else
    match up with
    | .fail => (1, ⟨500, .err (.engine .network)⟩)
    | .resp _ none => (1, ⟨500, .err (.engine .jsonErr)⟩)
    | .resp _ (some data) =>
      match booksItems data with
      | .error k => (1, ⟨500, .err (.engine k)⟩)
      | .ok items => (1, ⟨200, .items items⟩)

/-! ## Albums endpoint (`GET /api/search/albums`) -/

/-- Normalization of one Discogs record `a`: `a.title` falls back to
`"Untitled"`; subtitle prefers `(${a.year})`, else `a.format?.[0] || ""`. -/
def albumItem (a : Json) : Except EKind MediaItem := do
  let id ← jsGetE a "id"
  let title := jsOr (jget a "title") (Json.str "Untitled")
  let subtitle : Json :=
    match jget a "year" with
    | some v =>
      if v.truthy then Json.str ("(" ++ jsToStr false v ++ ")")
      else jsOr (idx0 (jget a "format")) (Json.str "")
    | none => jsOr (idx0 (jget a "format")) (Json.str "")
  let image := jsOr (jget a "cover_image") (Json.str "")
  pure ⟨id, "album", some title, subtitle, image, a⟩

/-- `(data.results || []).slice(0, 20).map(albumItem)` -/
def albumsItems (data : Json) : Except EKind (List MediaItem) := do
  let rs ← jsGetE data "results"
  let xs ← jsSliceList20 rs
  xs.mapM albumItem

/-- The albums handler.  Source order: `requireEnv("DISCOGS_TOKEN")`,
`requireEnv("DISCOGS_USER_AGENT")`, query check, fetch; on a non-ok
upstream status it relays that status with a diagnostic body
(`{error, status, details}`); otherwise it normalizes `data.results`. -/
def albumsHandler (env : Env) (q? : Option String) (up : AlbumFetched) : Nat × HttpRes :=
  if !requireEnvOk env.discogsToken then
    (0, ⟨500, .err (.missingEnv "DISCOGS_TOKEN")⟩)
  else if !requireEnvOk env.discogsUserAgent then
    (0, ⟨500, .err (.missingEnv "DISCOGS_USER_AGENT")⟩)
  else
    let q := jsTrim (q?.getD "")
    if q = "" then
      (0, ⟨400, .err .missingQuery⟩)
    else
      match up with
      | .fail => (1, ⟨500, .err (.engine .network)⟩)
      | .resp status pr =>
        let data := albumData pr
        if !statusOk status then
          (1, ⟨status, .discogsFailure status data⟩)
        else
          match albumsItems data with
          | .error k => (1, ⟨500, .err (.engine k)⟩)
          | .ok items => (1, ⟨200, .items items⟩)

/-! ## Favorites store (client side) -/

/-- A favorites category (`movie|book|album`), the value of `item.type`. -/
inductive Cat where
  | movie : Cat
  | book : Cat
  | album : Cat
deriving DecidableEq, Repr

/-- A stored favorite entry `{id, type, title, subtitle, image}`.  The
`id` keeps its raw JS value; comparisons coerce it with `String(...)`. -/
structure FavItem where
  id : Json
  type : Cat
  title : Json
  subtitle : Json
  image : Json

/-- The in-memory favorites collection: one ordered sequence per category. -/
structure Favs where
  movie : List FavItem
  book : List FavItem
  album : List FavItem

/-- `favs[key]` -/
def Favs.get (f : Favs) : Cat → List FavItem
  | .movie => f.movie
  | .book => f.book
  | .album => f.album

/-- `favs[key] = xs` -/
def Favs.set (f : Favs) : Cat → List FavItem → Favs
  | .movie, xs => { f with movie := xs }
  | .book, xs => { f with book := xs }
  | .album, xs => { f with album := xs }

/-- `{ movie: [], book: [], album: [] }` -/
def emptyFavs : Favs := ⟨[], [], []⟩

/-- How `addFavorite` concluded (the source signals this through the
status line: added, "Already in favorites.", or the capacity message). -/
inductive AddResult where
  | added : AddResult
  | duplicateError : AddResult
  | capacityError : AddResult
deriving DecidableEq, Repr

/-- `addFavorite(item)`: duplicate check by `String(x.id) === String(item.id)`
first, then the 5-entry capacity check, else append and persist. -/
def addFavorite (favs : Favs) (item : FavItem) : AddResult × Favs :=
  let key := item.type
  if (favs.get key).any (fun x => jsToStr false x.id == jsToStr false item.id) then
    (.duplicateError, favs)
  else if 5 ≤ (favs.get key).length then
    (.capacityError, favs)
  else
    (.added, favs.set key (favs.get key ++ [item]))

/-- `removeFavorite(type, id)`: keep the entries whose stringified id
differs from the stringified argument. -/
def removeFavorite (favs : Favs) (ty : Cat) (id : Json) : Favs :=
  favs.set ty ((favs.get ty).filter (fun x => jsToStr false x.id != jsToStr false id))

/-- The collection observed after the clear button removes the stored
blob: the next `loadFavorites` finds nothing and yields empty lists. -/
def clearedFavs : Favs := emptyFavs

/-- Every category holds at most 5 entries. -/
def Favs.bounded (f : Favs) : Prop :=
  f.movie.length ≤ 5 ∧ f.book.length ≤ 5 ∧ f.album.length ≤ 5

/-! ## Persistence (`loadFavorites` over the raw stored blob) -/

/-- The persisted blob as `loadFavorites` encounters it: absent from
storage (or empty, which is equally falsy), present but not valid JSON
(`JSON.parse` throws), or parsed JSON. -/
inductive StoredBlob where
  | absent : StoredBlob
  | unparseable (raw : String) : StoredBlob
  | parsed (j : Json) : StoredBlob

/-- What `loadFavorites` returns: three arrays of raw stored values. -/
structure StoredFavs where
  movie : List Json
  book : List Json
  album : List Json

/-- `Array.isArray(v) ? v : []` -/
def arrOrEmpty : Option Json → List Json
  | some (.arr xs) => xs
  | _ => []

/-- `loadFavorites()`: absent/unparseable blobs give the empty
collection; a parsed `null` blob throws on property access inside the
`try`, which the `catch` turns into the empty collection; otherwise
each of the three keys is kept only when it holds an array. -/
def loadFavorites : StoredBlob → StoredFavs
  | .absent => ⟨[], [], []⟩
  | .unparseable _ => ⟨[], [], []⟩
  | .parsed .null => ⟨[], [], []⟩
  | .parsed j =>
    ⟨arrOrEmpty (jget j "movie"), arrOrEmpty (jget j "book"), arrOrEmpty (jget j "album")⟩

/-! ## Request routing (server) and category mapping (client) -/

/-- The three registered search routes. -/
inductive SearchRoute where
  | movies : SearchRoute
  | books : SearchRoute
  | albums : SearchRoute
deriving DecidableEq, Repr

/-- Characters of a string lowercased (for case-insensitive matching). -/
def lowerChars (s : String) : List Char := s.data.map Char.toLower

/-- Express default path matching for a literal route: case-insensitive
(`caseSensitive: false`) and tolerant of one trailing slash
(`strict: false`). -/
def matchesRoute (route req : String) : Bool :=
  lowerChars req == lowerChars route || lowerChars req == lowerChars (route ++ "/")

/-- Which search handler, if any, an incoming request path reaches.
Only the three literal paths are registered; anything else falls
through past the search handlers. -/
def searchDispatch (path : String) : Option SearchRoute :=
  if matchesRoute "/api/search/movies" path then some .movies
  else if matchesRoute "/api/search/books" path then some .books
  else if matchesRoute "/api/search/albums" path then some .albums
  else none

/-- The path the client requests for a category
(`fetch(API_BASE + "/search/" + category + "?q=...")`). -/
def clientSearchPath (category : String) : String := "/api/search/" ++ category

/-- `mapCategoryToFavType` from the client: anything other than
`"movies"`/`"books"` maps to `"album"`. -/
def mapCategoryToFavType (category : String) : String :=
  if category = "movies" then "movie"
  else if category = "books" then "book"
  else "album"

/-! ## Concrete fixtures used in witnesses and counterexamples -/

/-- A favorite entry with a string id and empty display fields. -/
def favItemS (id : String) (ty : Cat) : FavItem :=
  ⟨Json.str id, ty, Json.str "", Json.str "", Json.str ""⟩

/-- A collection whose movie category is at its 5-entry capacity. -/
def favsFiveMovies : Favs :=
  ⟨[favItemS "1" .movie, favItemS "2" .movie, favItemS "3" .movie,
    favItemS "4" .movie, favItemS "5" .movie], [], []⟩

/-- An environment with every credential configured. -/
def envAll : Env := ⟨some "key", some "gkey", some "token", some "agent"⟩

/-! ## Helper lemmas about the favorites collection -/

theorem Favs.set_get (f : Favs) (ty : Cat) : f.set ty (f.get ty) = f := by
  cases ty <;> rfl

theorem Favs.get_set (f : Favs) (ty : Cat) (xs : List FavItem) :
    (f.set ty xs).get ty = xs := by
  cases ty <;> rfl

theorem Favs.set_set (f : Favs) (ty : Cat) (xs ys : List FavItem) :
    (f.set ty xs).set ty ys = f.set ty ys := by
  cases ty <;> rfl

theorem Favs.bounded_get {f : Favs} (h : f.bounded) (ty : Cat) :
    (f.get ty).length ≤ 5 := by
  cases ty
  · exact h.1
  · exact h.2.1
  · exact h.2.2

theorem Favs.bounded_set {f : Favs} (h : f.bounded) (ty : Cat)
    {xs : List FavItem} (hxs : xs.length ≤ 5) : (f.set ty xs).bounded := by
  obtain ⟨h1, h2, h3⟩ := h
  cases ty <;> exact ⟨by simpa [Favs.set], by simpa [Favs.set], by simpa [Favs.set]⟩

/-- The state after a successful `addFavorite`: the item appended to its
category. -/
theorem addFavorite_added_state (favs : Favs) (item : FavItem)
    (hd : ((favs.get item.type).any
      (fun x => jsToStr false x.id == jsToStr false item.id)) = false)
    (hc : ¬ 5 ≤ (favs.get item.type).length) :
    addFavorite favs item = (.added, favs.set item.type (favs.get item.type ++ [item])) := by
  rw [addFavorite]
  simp only [hd, Bool.false_eq_true, if_false, hc, if_neg hc]

/-! ## Helper lemmas about routing and normalization -/

theorem lowerChars_append (s t : String) :
    lowerChars (s ++ t) = lowerChars s ++ lowerChars t := by
  simp [lowerChars, String.data_append]

theorem matchesRoute_tail_false (c tail : String)
    (h1 : lowerChars c ≠ lowerChars tail)
    (h2 : lowerChars c ≠ lowerChars (tail ++ "/")) :
    matchesRoute ("/api/search/" ++ tail) (clientSearchPath c) = false := by
  rw [matchesRoute, clientSearchPath, Bool.or_eq_false_iff]
  constructor
  · rw [beq_eq_false_iff_ne]
    rw [lowerChars_append, lowerChars_append]
    intro he
    exact h1 (List.append_cancel_left he)
  · rw [beq_eq_false_iff_ne]
    rw [String.append_assoc]
    rw [lowerChars_append, lowerChars_append]
    intro he
    exact h2 (List.append_cancel_left he)

/-- The movie normalization of an object record, as a map over the
subtitle computation (the only failure point besides a null record). -/
theorem movieItem_obj (fs : List (String × Json)) :
    movieItem (Json.obj fs)
      = Except.map (fun st =>
          ⟨lookupF fs "id", "movie", lookupF fs "title", st,
           moviePoster (lookupF fs "poster_path"), Json.obj fs⟩)
        (movieSubtitle (lookupF fs "release_date")) := rfl

/-- The book normalization of an object record, as a map over the
author-join computation (the only failure point besides a null record). -/
theorem bookItem_obj (bfs : List (String × Json)) :
    bookItem (Json.obj bfs)
      = Except.map (fun st =>
          ⟨lookupF bfs "id", "book",
           some (jsOr (jget (jsOr (lookupF bfs "volumeInfo") (Json.obj [])) "title")
             (Json.str "Untitled")),
           st,
           jsOr (chainGet (jget (jsOr (lookupF bfs "volumeInfo") (Json.obj [])) "imageLinks")
               "thumbnail")
             (jsOr (chainGet (jget (jsOr (lookupF bfs "volumeInfo") (Json.obj [])) "imageLinks")
               "smallThumbnail") (Json.str "")),
           Json.obj bfs⟩)
        (bookAuthors (jsOr (lookupF bfs "volumeInfo") (Json.obj []))) := rfl

/-! ## Claim C1 — dispatch of unrecognized categories -/

/-- Claim C1, counterexample: the request path for the unrecognized
category `"podcasts"` matches no registered search route — in
particular it is not handled by the Album adapter; it falls through
(and is rejected downstream), contrary to the claim. -/
theorem searchDispatch_podcasts_unhandled :
    searchDispatch (clientSearchPath "podcasts") = none ∧
    searchDispatch (clientSearchPath "podcasts") ≠ some SearchRoute.albums := by
  constructor
  · decide
  · decide

/-- Claim C1, amended: a category that (case-insensitively, allowing a
trailing slash) is none of `movies`/`books`/`albums` reaches no search
handler at all — it is not routed to the Album adapter.  What does
default to the album case is the client-side favorites-type mapping
`mapCategoryToFavType`, which sends every category other than
`"movies"`/`"books"` to `"album"`. -/
theorem searchDispatch_unknown_unrouted :
    ∀ c : String,
      lowerChars c ≠ lowerChars "movies" → lowerChars c ≠ lowerChars "movies/" →
      lowerChars c ≠ lowerChars "books" → lowerChars c ≠ lowerChars "books/" →
      lowerChars c ≠ lowerChars "albums" → lowerChars c ≠ lowerChars "albums/" →
      searchDispatch (clientSearchPath c) = none ∧
      (c ≠ "movies" → c ≠ "books" → mapCategoryToFavType c = "album") := by
  intro c h1 h2 h3 h4 h5 h6
  constructor
  · have m1 : matchesRoute "/api/search/movies" (clientSearchPath c) = false :=
      matchesRoute_tail_false c "movies" h1 h2
    have m2 : matchesRoute "/api/search/books" (clientSearchPath c) = false :=
      matchesRoute_tail_false c "books" h3 h4
    have m3 : matchesRoute "/api/search/albums" (clientSearchPath c) = false :=
      matchesRoute_tail_false c "albums" h5 h6
    simp [searchDispatch, m1, m2, m3]
  · intro hm hb
    rw [mapCategoryToFavType, if_neg hm, if_neg hb]

/-- Claim C1, witness: the amended statement applied to the concrete
unknown category `"tv"`. -/
theorem searchDispatch_unknown_unrouted_witness :
    searchDispatch (clientSearchPath "tv") = none ∧ mapCategoryToFavType "tv" = "album" :=
  ⟨(searchDispatch_unknown_unrouted "tv" (by decide) (by decide) (by decide) (by decide)
      (by decide) (by decide)).1,
   (searchDispatch_unknown_unrouted "tv" (by decide) (by decide) (by decide) (by decide)
      (by decide) (by decide)).2 (by decide) (by decide)⟩

/-! ## Claim C2 — handling of non-success upstream statuses -/

/-- Claim C2, counterexample: the movies endpoint, on an upstream 401
with a JSON body carrying no results, answers 200 with an empty items
envelope — not a 500 failure. -/
theorem movies_upstream_error_returns_success :
    moviesHandler envAll (some "batman") (.resp 401 (some (Json.obj [])))
      = (1, ⟨200, .items []⟩) ∧
    statusOk 401 = false := ⟨rfl, rfl⟩

/-- Claim C2, amended: only the albums endpoint reacts to the upstream
HTTP status, and it relays the upstream status code (not 500) together
with an error body carrying that status and the diagnostic payload;
the movies and books endpoints ignore the upstream status entirely
(their response does not depend on it). -/
theorem upstream_error_status_relay :
    (∀ (env : Env) (q? : Option String) (status : Nat) (pr : AlbumParse),
        requireEnvOk env.discogsToken = true → requireEnvOk env.discogsUserAgent = true →
        jsTrim (q?.getD "") ≠ "" → statusOk status = false →
        albumsHandler env q? (.resp status pr)
          = (1, ⟨status, .discogsFailure status (albumData pr)⟩)) ∧
    (∀ (env : Env) (q? : Option String) (s₁ s₂ : Nat) (body : Option Json),
        moviesHandler env q? (.resp s₁ body) = moviesHandler env q? (.resp s₂ body)) ∧
    (∀ (env : Env) (q? : Option String) (s₁ s₂ : Nat) (body : Option Json),
        booksHandler env q? (.resp s₁ body) = booksHandler env q? (.resp s₂ body)) := by
  refine ⟨?_, ?_, ?_⟩
  · intro env q? status pr ht hu hq hs
    rw [albumsHandler.eq_def, ht, hu]
    simp only [Bool.not_true, Bool.false_eq_true, if_false]
    rw [if_neg hq]
    simp only [hs, Bool.not_false, if_true]
  · intro env q? s₁ s₂ body
    cases body <;> rfl
  · intro env q? s₁ s₂ body
    cases body <;> rfl

/-- Claim C2, witness: the albums endpoint relays an upstream 403 with
its non-JSON body as diagnostic payload, and the books endpoint's
answer at upstream status 503 equals its answer at 200. -/
theorem upstream_error_status_relay_witness :
    albumsHandler envAll (some "daft punk") (.resp 403 (.rawText "Denied"))
      = (1, ⟨403, .discogsFailure 403 (Json.obj [("raw", Json.str "Denied")])⟩) ∧
    booksHandler envAll (some "x") (.resp 503 (some (Json.obj [])))
      = booksHandler envAll (some "x") (.resp 200 (some (Json.obj []))) :=
  ⟨upstream_error_status_relay.1 envAll (some "daft punk") 403 (.rawText "Denied")
      rfl rfl (by decide) rfl,
   upstream_error_status_relay.2.2 envAll (some "x") 503 200 (some (Json.obj []))⟩

/-! ## Claim C3 — title fallback per provider -/

/-- Claim C3, counterexample: the movies endpoint maps a record with no
`title` field to an item whose title is absent, not the `"Untitled"`
placeholder. -/
theorem movie_record_without_title_passthrough :
    moviesHandler envAll (some "batman")
      (.resp 200 (some (Json.obj [("results", Json.arr [Json.obj [("id", Json.num 7)]])])))
      = (1, ⟨200, .items [⟨some (Json.num 7), "movie", none, Json.str "", Json.str "",
          Json.obj [("id", Json.num 7)]⟩]⟩) ∧
    (none : Option Json) ≠ some (Json.str "Untitled") := ⟨rfl, by simp⟩

/-- Claim C3, amended: the book and album normalizations fall back to
the literal `"Untitled"` when the upstream record carries no title, but
the movie normalization copies `m.title` through unchanged — an absent
movie title stays absent. -/
theorem title_fallback :
    (∀ (m : Json) (mi : MediaItem), movieItem m = .ok mi → mi.title = jget m "title") ∧
    (∀ (b : Json) (mi : MediaItem) (fields : List (String × Json)),
        bookItem b = .ok mi → jget b "volumeInfo" = some (.obj fields) →
        lookupF fields "title" = none → mi.title = some (.str "Untitled")) ∧
    (∀ (a : Json) (mi : MediaItem), albumItem a = .ok mi → jget a "title" = none →
        mi.title = some (.str "Untitled")) := by
  refine ⟨?_, ?_, ?_⟩
  · intro m mi h
    cases m with
    | null => exact (nomatch h)
    | bool b => cases Except.ok.inj h; rfl
    | num n => cases Except.ok.inj h; rfl
    | str s => cases Except.ok.inj h; rfl
    | arr xs => cases Except.ok.inj h; rfl
    | obj fs =>
      rw [movieItem_obj] at h
      cases hs : movieSubtitle (lookupF fs "release_date") with
      | error e => rw [hs] at h; exact (nomatch h)
      | ok st =>
        rw [hs] at h
        cases Except.ok.inj h
        rfl
  · intro b mi fields h hv ht
    cases b with
    | null => exact (nomatch hv)
    | bool x => exact (nomatch hv)
    | num x => exact (nomatch hv)
    | str x => exact (nomatch hv)
    | arr x => exact (nomatch hv)
    | obj bfs =>
      rw [bookItem_obj] at h
      cases hs : bookAuthors (jsOr (lookupF bfs "volumeInfo") (Json.obj [])) with
      | error e => rw [hs] at h; exact (nomatch h)
      | ok st =>
        rw [hs] at h
        cases Except.ok.inj h
        have hv' : lookupF bfs "volumeInfo" = some (Json.obj fields) := hv
        simp [hv', jsOr, Json.truthy, jget, ht]
  · intro a mi h ht
    cases a with
    | null => exact (nomatch h)
    | bool b => cases Except.ok.inj h; rfl
    | num n => cases Except.ok.inj h; rfl
    | str s => cases Except.ok.inj h; rfl
    | arr xs => cases Except.ok.inj h; rfl
    | obj fs =>
      cases Except.ok.inj h
      have ht' : lookupF fs "title" = none := ht
      simp [jsOr, jget, ht']

/-- Claim C3, witness: the amended statement applied to concrete
records without a title for each of the three providers. -/
theorem title_fallback_witness :
    (⟨some (Json.num 7), "movie", none, Json.str "", Json.str "",
        Json.obj [("id", Json.num 7)]⟩ : MediaItem).title
      = jget (Json.obj [("id", Json.num 7)]) "title" ∧
    (⟨none, "book", some (Json.str "Untitled"), Json.str "A", Json.str "",
        Json.obj [("volumeInfo", Json.obj [("authors", Json.arr [Json.str "A"])])]⟩ : MediaItem).title
      = some (Json.str "Untitled") ∧
    (⟨some (Json.num 3), "album", some (Json.str "Untitled"), Json.str "", Json.str "",
        Json.obj [("id", Json.num 3)]⟩ : MediaItem).title
      = some (Json.str "Untitled") :=
  ⟨title_fallback.1 (Json.obj [("id", Json.num 7)]) _ rfl,
   title_fallback.2.1 (Json.obj [("volumeInfo", Json.obj [("authors", Json.arr [Json.str "A"])])])
      _ [("authors", Json.arr [Json.str "A"])] rfl rfl rfl,
   title_fallback.2.2 (Json.obj [("id", Json.num 3)]) _ rfl rfl⟩

/-! ## Claim C4 — empty-query validation and its ordering -/

/-- Claim C4, counterexample: with an empty query and a missing movie
credential the movies endpoint answers the credential failure (500,
missing-env message), not the 400 missing-query validation error — the
credential check runs first. -/
theorem empty_query_missing_cred_config_error :
    moviesHandler ⟨none, none, none, none⟩ (some "") .fail
      = (0, ⟨500, .err (.missingEnv "TMDB_API_KEY")⟩) ∧
    ErrMsg.missingEnv "TMDB_API_KEY" ≠ ErrMsg.missingQuery ∧
    (500 : Nat) ≠ 400 := ⟨rfl, by simp, by decide⟩

/-- Claim C4, amended: a query that is empty after trimming yields the
400 "Missing query param q" response with no fetch performed — but only
once the credential checks have passed (movies, albums; books has no
credential check); when the movie credential is missing the credential
failure wins over the empty-query validation. -/
theorem empty_query_validation :
    (∀ (env : Env) (q? : Option String) (up : Fetched),
        requireEnvOk env.tmdbApiKey = true → jsTrim (q?.getD "") = "" →
        moviesHandler env q? up = (0, ⟨400, .err .missingQuery⟩)) ∧
    (∀ (env : Env) (q? : Option String) (up : Fetched),
        jsTrim (q?.getD "") = "" →
        booksHandler env q? up = (0, ⟨400, .err .missingQuery⟩)) ∧
    (∀ (env : Env) (q? : Option String) (up : AlbumFetched),
        requireEnvOk env.discogsToken = true → requireEnvOk env.discogsUserAgent = true →
        jsTrim (q?.getD "") = "" →
        albumsHandler env q? up = (0, ⟨400, .err .missingQuery⟩)) ∧
    (∀ (env : Env) (q? : Option String) (up : Fetched),
        requireEnvOk env.tmdbApiKey = false →
        moviesHandler env q? up = (0, ⟨500, .err (.missingEnv "TMDB_API_KEY")⟩)) := by
  refine ⟨?_, ?_, ?_, ?_⟩
  · intro env q? up hk hq
    rw [moviesHandler.eq_def, hk]
    simp only [Bool.not_true, Bool.false_eq_true, if_false]
    rw [if_pos hq]
  · intro env q? up hq
    rw [booksHandler.eq_def]
    rw [if_pos hq]
  · intro env q? up ht hu hq
    rw [albumsHandler.eq_def, ht, hu]
    simp only [Bool.not_true, Bool.false_eq_true, if_false]
    rw [if_pos hq]
  · intro env q? up hk
    rw [moviesHandler.eq_def, hk]
    rfl

/-- Claim C4, witness: the amended statement at concrete inputs —
whitespace-only and absent queries yield the 400 response with zero
fetches when credentials pass, and an empty query with a missing movie
credential yields the credential failure. -/
theorem empty_query_validation_witness :
    moviesHandler envAll (some "   ") .fail = (0, ⟨400, .err .missingQuery⟩) ∧
    booksHandler envAll (some "") .fail = (0, ⟨400, .err .missingQuery⟩) ∧
    albumsHandler envAll none .fail = (0, ⟨400, .err .missingQuery⟩) ∧
    moviesHandler ⟨some "", none, none, none⟩ (some "") .fail
      = (0, ⟨500, .err (.missingEnv "TMDB_API_KEY")⟩) :=
  ⟨empty_query_validation.1 envAll (some "   ") .fail rfl rfl,
   empty_query_validation.2.1 envAll (some "") .fail rfl,
   empty_query_validation.2.2.1 envAll none .fail rfl rfl rfl,
   empty_query_validation.2.2.2 ⟨some "", none, none, none⟩ (some "") .fail rfl⟩

/-! ## Claim C5 — capacity limit of a favorites category -/

/-- Claim C5, counterexample: adding an item whose id duplicates one of
the 5 stored entries of a full category fails with the duplicate error,
not the capacity error, so "a further add fails with CapacityError"
does not hold for every further add. -/
theorem addFavorite_full_category_duplicate_result :
    addFavorite favsFiveMovies (favItemS "1" .movie) = (AddResult.duplicateError, favsFiveMovies) ∧
    AddResult.duplicateError ≠ AddResult.capacityError := ⟨rfl, by decide⟩

/-- Claim C5, amended: when a category already holds 5 items, adding a
non-duplicate item fails with the capacity error; any add to a category
at (or above) capacity leaves the collection unchanged; and add, remove
and clear all preserve the 5-per-category bound. -/
theorem addFavorite_capacity :
    (∀ (favs : Favs) (item : FavItem),
        (favs.get item.type).length = 5 →
        (¬ ∃ x ∈ favs.get item.type, jsToStr false x.id = jsToStr false item.id) →
        addFavorite favs item = (.capacityError, favs)) ∧
    (∀ (favs : Favs) (item : FavItem),
        5 ≤ (favs.get item.type).length → (addFavorite favs item).2 = favs) ∧
    (∀ (favs : Favs) (item : FavItem), favs.bounded → ((addFavorite favs item).2).bounded) ∧
    (∀ (favs : Favs) (ty : Cat) (id : Json), favs.bounded → (removeFavorite favs ty id).bounded) ∧
    clearedFavs.bounded := by
  refine ⟨?_, ?_, ?_, ?_, ?_⟩
  · intro favs item hlen hnd
    have hd : ((favs.get item.type).any
        (fun x => jsToStr false x.id == jsToStr false item.id)) = false := by
      rw [List.any_eq_false]
      intro x hx
      intro hbe
      exact hnd ⟨x, hx, beq_iff_eq.mp hbe⟩
    rw [addFavorite]
    simp only [hd, Bool.false_eq_true, if_false]
    rw [if_pos (by omega)]
  · intro favs item hc
    by_cases hd : ((favs.get item.type).any
        (fun x => jsToStr false x.id == jsToStr false item.id)) = true
    · rw [addFavorite]; simp only [hd, if_true]
    · simp only [Bool.not_eq_true] at hd
      rw [addFavorite]
      simp only [hd, Bool.false_eq_true, if_false, if_pos hc]
  · intro favs item hb
    by_cases hd : ((favs.get item.type).any
        (fun x => jsToStr false x.id == jsToStr false item.id)) = true
    · rw [addFavorite]; simpa only [hd, if_true]
    · by_cases hc : 5 ≤ (favs.get item.type).length
      · simp only [Bool.not_eq_true] at hd
        rw [addFavorite]
        simpa only [hd, Bool.false_eq_true, if_false, if_pos hc]
      · simp only [Bool.not_eq_true] at hd
        rw [addFavorite_added_state favs item hd hc]
        apply Favs.bounded_set hb
        have := Favs.bounded_get hb item.type
        simp only [List.length_append, List.length_singleton]
        omega
  · intro favs ty id hb
    apply Favs.bounded_set hb
    exact le_trans (List.length_filter_le _ _) (Favs.bounded_get hb ty)
  · exact ⟨by simp [clearedFavs, emptyFavs], by simp [clearedFavs, emptyFavs],
      by simp [clearedFavs, emptyFavs]⟩

/-- Claim C5, witness: the amended statement at a full concrete movie
category — a 6th distinct add fails with the capacity error and leaves
the collection unchanged and bounded. -/
theorem addFavorite_capacity_witness :
    addFavorite favsFiveMovies (favItemS "6" Cat.movie) = (AddResult.capacityError, favsFiveMovies) ∧
    (addFavorite favsFiveMovies (favItemS "6" Cat.movie)).2 = favsFiveMovies ∧
    ((addFavorite favsFiveMovies (favItemS "6" Cat.movie)).2).bounded ∧
    (removeFavorite favsFiveMovies Cat.movie (Json.str "3")).bounded :=
  ⟨addFavorite_capacity.1 favsFiveMovies (favItemS "6" Cat.movie) (by decide) (by decide),
   addFavorite_capacity.2.1 favsFiveMovies (favItemS "6" Cat.movie) (by decide),
   addFavorite_capacity.2.2.1 favsFiveMovies (favItemS "6" Cat.movie)
     ⟨by decide, by decide, by decide⟩,
   addFavorite_capacity.2.2.2.1 favsFiveMovies Cat.movie (Json.str "3")
     ⟨by decide, by decide, by decide⟩⟩

/-! ## Claim C6 — duplicate adds are rejected -/

/-- Claim C6: adding an item whose stringified id already occurs in its
category fails with the duplicate error and leaves the collection
unchanged; consequently, after a successful add, re-adding the same
item is rejected as a duplicate. -/
theorem addFavorite_duplicate_rejected :
    (∀ (favs : Favs) (item : FavItem),
        (∃ x ∈ favs.get item.type, jsToStr false x.id = jsToStr false item.id) →
        addFavorite favs item = (.duplicateError, favs)) ∧
    (∀ (favs : Favs) (item : FavItem),
        (addFavorite favs item).1 = .added →
        (addFavorite (addFavorite favs item).2 item).1 = .duplicateError) := by
  have dup : ∀ (favs : Favs) (item : FavItem),
      (∃ x ∈ favs.get item.type, jsToStr false x.id = jsToStr false item.id) →
      addFavorite favs item = (.duplicateError, favs) := by
    intro favs item h
    have ha : ((favs.get item.type).any
        (fun x => jsToStr false x.id == jsToStr false item.id)) = true := by
      rw [List.any_eq_true]
      obtain ⟨x, hx, he⟩ := h
      exact ⟨x, hx, beq_iff_eq.mpr he⟩
    rw [addFavorite]
    simp only [ha, if_true]
  refine ⟨dup, ?_⟩
  intro favs item h
  by_cases hd : ((favs.get item.type).any
      (fun x => jsToStr false x.id == jsToStr false item.id)) = true
  · rw [addFavorite] at h
    simp only [hd, if_true] at h
    cases h
  · by_cases hc : 5 ≤ (favs.get item.type).length
    · rw [addFavorite] at h
      simp only [Bool.not_eq_true] at hd
      simp only [hd, Bool.false_eq_true, if_false, if_pos hc] at h
      cases h
    · simp only [Bool.not_eq_true] at hd
      have hmem : item ∈ (favs.set item.type (favs.get item.type ++ [item])).get item.type := by
        rw [Favs.get_set]
        exact List.mem_append_right _ (List.mem_singleton.mpr rfl)
      have hres := dup (favs.set item.type (favs.get item.type ++ [item])) item ⟨item, hmem, rfl⟩
      rw [addFavorite_added_state favs item hd hc]
      rw [hres]

/-- Claim C6, witness: a duplicate book id is rejected and re-adding a
just-added book is rejected. -/
theorem addFavorite_duplicate_rejected_witness :
    addFavorite ⟨[], [favItemS "abc" Cat.book], []⟩ (favItemS "abc" Cat.book)
      = (AddResult.duplicateError, ⟨[], [favItemS "abc" Cat.book], []⟩) ∧
    (addFavorite (addFavorite emptyFavs (favItemS "abc" Cat.book)).2 (favItemS "abc" Cat.book)).1
      = AddResult.duplicateError :=
  ⟨addFavorite_duplicate_rejected.1 ⟨[], [favItemS "abc" Cat.book], []⟩ (favItemS "abc" Cat.book)
      ⟨favItemS "abc" Cat.book, List.mem_singleton.mpr rfl, rfl⟩,
   addFavorite_duplicate_rejected.2 emptyFavs (favItemS "abc" Cat.book) (by decide)⟩

/-! ## Claim C7 — credential checks precede any fetch -/

/-- Claim C7: with the movie API key unset the movies endpoint fails
with the missing-credential 500 after zero fetch calls, and with either
album credential unset the albums endpoint does the same. -/
theorem missing_credential_no_fetch :
    (∀ (env : Env) (q? : Option String) (up : Fetched),
        env.tmdbApiKey = none →
        moviesHandler env q? up = (0, ⟨500, .err (.missingEnv "TMDB_API_KEY")⟩)) ∧
    (∀ (env : Env) (q? : Option String) (up : AlbumFetched),
        env.discogsToken = none →
        albumsHandler env q? up = (0, ⟨500, .err (.missingEnv "DISCOGS_TOKEN")⟩)) ∧
    (∀ (env : Env) (q? : Option String) (up : AlbumFetched),
        env.discogsUserAgent = none →
        (albumsHandler env q? up).1 = 0 ∧ (albumsHandler env q? up).2.status = 500 ∧
        ∃ n, (albumsHandler env q? up).2.body = ResBody.err (.missingEnv n)) := by
  refine ⟨?_, ?_, ?_⟩
  · intro env q? up h
    rw [moviesHandler.eq_def, h]
    rfl
  · intro env q? up h
    rw [albumsHandler.eq_def, h]
    rfl
  · intro env q? up h
    by_cases ht : requireEnvOk env.discogsToken = true
    · have hres : albumsHandler env q? up = (0, ⟨500, .err (.missingEnv "DISCOGS_USER_AGENT")⟩) := by
        rw [albumsHandler.eq_def, h, ht]
        rfl
      rw [hres]
      exact ⟨rfl, rfl, "DISCOGS_USER_AGENT", rfl⟩
    · have ht' : requireEnvOk env.discogsToken = false := by
        simpa using ht
      have hres : albumsHandler env q? up = (0, ⟨500, .err (.missingEnv "DISCOGS_TOKEN")⟩) := by
        rw [albumsHandler.eq_def, ht']
        rfl
      rw [hres]
      exact ⟨rfl, rfl, "DISCOGS_TOKEN", rfl⟩

/-- Claim C7, witness: concrete environments with one credential unset
each produce the 500 missing-env response with a fetch count of zero. -/
theorem missing_credential_no_fetch_witness :
    moviesHandler ⟨none, some "g", some "t", some "ua"⟩ (some "batman")
        (.resp 200 (some (Json.obj [])))
      = (0, ⟨500, .err (.missingEnv "TMDB_API_KEY")⟩) ∧
    albumsHandler ⟨some "k", none, none, some "ua"⟩ (some "q") .fail
      = (0, ⟨500, .err (.missingEnv "DISCOGS_TOKEN")⟩) ∧
    ((albumsHandler ⟨some "k", none, some "t", none⟩ (some "q") .fail).1 = 0 ∧
      (albumsHandler ⟨some "k", none, some "t", none⟩ (some "q") .fail).2.status = 500 ∧
      ∃ n, (albumsHandler ⟨some "k", none, some "t", none⟩ (some "q") .fail).2.body
        = ResBody.err (.missingEnv n)) :=
  ⟨missing_credential_no_fetch.1 ⟨none, some "g", some "t", some "ua"⟩ (some "batman")
      (.resp 200 (some (Json.obj []))) rfl,
   missing_credential_no_fetch.2.1 ⟨some "k", none, none, some "ua"⟩ (some "q") .fail rfl,
   missing_credential_no_fetch.2.2 ⟨some "k", none, some "t", none⟩ (some "q") .fail rfl⟩

/-! ## Claim C8 — load self-heals on absent or corrupt blobs -/

/-- Claim C8: an absent or unparseable persisted blob makes
`loadFavorites` return the empty collection for all three categories;
being a total function of the blob, it surfaces no parse error. -/
theorem loadFavorites_selfhealing :
    loadFavorites .absent = ⟨[], [], []⟩ ∧
    ∀ raw, loadFavorites (.unparseable raw) = ⟨[], [], []⟩ :=
  ⟨rfl, fun _ => rfl⟩

/-! ## Claim C9 — remove is a no-op on absent ids and idempotent -/

/-- Claim C9: removing an id whose stringification matches no entry of
the category returns the collection unchanged (and never errors, being
total), and removing the same id twice equals removing it once. -/
theorem removeFavorite_noop_and_idempotent :
    (∀ (favs : Favs) (ty : Cat) (id : Json),
        (∀ x ∈ favs.get ty, jsToStr false x.id ≠ jsToStr false id) →
        removeFavorite favs ty id = favs) ∧
    (∀ (favs : Favs) (ty : Cat) (id : Json),
        removeFavorite (removeFavorite favs ty id) ty id = removeFavorite favs ty id) := by
  constructor
  · intro favs ty id h
    have hf : (favs.get ty).filter (fun x => jsToStr false x.id != jsToStr false id)
        = favs.get ty := by
      apply List.filter_eq_self.mpr
      intro x hx
      simpa [bne_iff_ne] using h x hx
    rw [removeFavorite, hf, Favs.set_get]
  · intro favs ty id
    rw [removeFavorite, removeFavorite, Favs.get_set, Favs.set_set]
    congr 1
    apply List.filter_eq_self.mpr
    intro x hx
    exact (List.mem_filter.mp hx).2

/-- Claim C9, witness: removing an id not stored in the full movie
category leaves the concrete collection unchanged. -/
theorem removeFavorite_noop_witness :
    removeFavorite favsFiveMovies Cat.movie (Json.str "9") = favsFiveMovies :=
  removeFavorite_noop_and_idempotent.1 favsFiveMovies Cat.movie (Json.str "9") (by decide)

/-! ## Claim C10 — load sanitizes each category independently -/

/-- A possibly-undefined value is the stored array exactly when it is
an array; anything else collapses to the empty list. -/
theorem arrOrEmpty_spec (v : Option Json) :
    (∀ xs, v = some (.arr xs) → arrOrEmpty v = xs) ∧
    ((∀ xs, v ≠ some (.arr xs)) → arrOrEmpty v = []) := by
  constructor
  · intro xs h; subst h; rfl
  · intro h
    match v with
    | none => rfl
    | some .null => rfl
    | some (.bool b) => rfl
    | some (.num n) => rfl
    | some (.str s) => rfl
    | some (.arr xs) => exact absurd rfl (h xs)
    | some (.obj fs) => rfl

/-- Claim C10: on a parsed blob, each of the three keys is returned
unchanged when it holds an array and replaced by the empty list
otherwise — per category, not all-or-nothing (by construction all three
components of the result are lists). -/
theorem loadFavorites_per_category (j : Json) :
    ((∀ xs, jget j "movie" = some (.arr xs) → (loadFavorites (.parsed j)).movie = xs) ∧
      ((∀ xs, jget j "movie" ≠ some (.arr xs)) → (loadFavorites (.parsed j)).movie = [])) ∧
    ((∀ xs, jget j "book" = some (.arr xs) → (loadFavorites (.parsed j)).book = xs) ∧
      ((∀ xs, jget j "book" ≠ some (.arr xs)) → (loadFavorites (.parsed j)).book = [])) ∧
    ((∀ xs, jget j "album" = some (.arr xs) → (loadFavorites (.parsed j)).album = xs) ∧
      ((∀ xs, jget j "album" ≠ some (.arr xs)) → (loadFavorites (.parsed j)).album = [])) := by
  cases j with
  | null =>
    exact ⟨⟨(fun _ h => nomatch h), fun _ => rfl⟩,
      ⟨(fun _ h => nomatch h), fun _ => rfl⟩,
      ⟨(fun _ h => nomatch h), fun _ => rfl⟩⟩
  | bool b => exact ⟨arrOrEmpty_spec _, arrOrEmpty_spec _, arrOrEmpty_spec _⟩
  | num n => exact ⟨arrOrEmpty_spec _, arrOrEmpty_spec _, arrOrEmpty_spec _⟩
  | str s => exact ⟨arrOrEmpty_spec _, arrOrEmpty_spec _, arrOrEmpty_spec _⟩
  | arr xs => exact ⟨arrOrEmpty_spec _, arrOrEmpty_spec _, arrOrEmpty_spec _⟩
  | obj fs => exact ⟨arrOrEmpty_spec _, arrOrEmpty_spec _, arrOrEmpty_spec _⟩

/-- Claim C10, witness: a blob whose movie key is an array and whose
book key is a string keeps the movie array, empties the book key, and
empties the missing album key. -/
theorem loadFavorites_per_category_witness :
    (loadFavorites (.parsed (Json.obj [("movie", Json.arr [Json.num 1]), ("book", Json.str "x")]))).movie
      = [Json.num 1] ∧
    (loadFavorites (.parsed (Json.obj [("movie", Json.arr [Json.num 1]), ("book", Json.str "x")]))).book
      = [] ∧
    (loadFavorites (.parsed (Json.obj [("movie", Json.arr [Json.num 1]), ("book", Json.str "x")]))).album
      = [] :=
  ⟨(loadFavorites_per_category _).1.1 [Json.num 1] rfl,
   (loadFavorites_per_category _).2.1.2 (fun _ h => Json.noConfusion (Option.some.inj h)),
   (loadFavorites_per_category _).2.2.2 (fun _ h => nomatch h)⟩
